import Mathlib

/-!
Shallow embedding of the Game Boy CPU emulator core of `gameboy_rust`
(crate `emulation`), together with theorems settling claims C1..C10
about it.

Modelling conventions:
* `u8`/`u16` values are `Nat`s; wrap-around is written explicitly
  (`% 256`, `% 65536`, `% 2 ^ w`) exactly where the source wraps
  (`wrapping_add`, `to_le_bytes`, `overflowing_add`/`overflowing_sub`);
  call sites that use Rust's plain `+`/`-` on values that stay in range
  in every scenario below are modelled with plain `Nat` arithmetic.
* A Rust panic (overflow of `i8::abs`, a failed `unwrap`, an
  out-of-bounds `Vec` index) is modelled as `Option.none`.
* Fallible operations mirror Rust's `Result` with `Except`.
-/

set_option maxRecDepth 100000

namespace GameboyRust

/-! ## bits.rs: the flag-producing add/subtract primitives

The Rust functions are generic over an unsigned integer type `U`; the
embedding takes the bit width `w` of `U` explicitly (8 for `u8`, 16 for
`u16`).  `half_value = U::max_value() >> (U::zero().count_zeros() / 2)`
is the low half-width mask, `0x0F` for `u8` and `0x00FF` for `u16`. -/

/-- `U::overflowing_add` at bit width `w`: the wrapped sum and whether the
mathematical sum overflowed. -/
def overflowing_add (w a b : Nat) : Nat × Bool :=
  ((a + b) % 2 ^ w, decide (2 ^ w ≤ a + b))

/-- `U::overflowing_sub` at bit width `w`: the wrapped difference and
whether the subtraction borrowed. -/
def overflowing_sub (w a b : Nat) : Nat × Bool :=
  (if a < b then 2 ^ w + a - b else a - b, decide (a < b))

/-- `bits::bit_add(a, b, carry)`: `(result, carry, half_carry)`. -/
def bit_add (w a b : Nat) (carry : Bool) : Nat × Bool × Bool :=
  let carry_value := if carry then 1 else 0
  let half_value := (2 ^ w - 1) >>> (w / 2)
  let has_half_carry :=
    decide (half_value < (a &&& half_value) + (b &&& half_value) + carry_value)
  match overflowing_add w a b with
  | (sum, has_carry) =>
    if has_carry then
      ((overflowing_add w sum carry_value).1, true, has_half_carry)
    else
      let (sum2, has_carry2) := overflowing_add w sum carry_value
      (sum2, has_carry2, has_half_carry)

/-- `bits::bit_subtract(a, b, borrow)`: `(result, borrow, half_borrow)`.
Note the half-borrow comparison from the source: the borrow-in is added to
the FULL second operand with `wrapping_add` and the mask is applied to the
sum, `(a & half) < (b.wrapping_add(borrow) & half)`. -/
def bit_subtract (w a b : Nat) (borrow : Bool) : Nat × Bool × Bool :=
  let borrow_value := if borrow then 1 else 0
  let half_value := (2 ^ w - 1) >>> (w / 2)
  let has_half_borrow :=
    decide ((a &&& half_value) < ((b + borrow_value) % 2 ^ w) &&& half_value)
  match overflowing_sub w a b with
  | (dif, has_borrow) =>
    if has_borrow then
      ((overflowing_sub w dif borrow_value).1, true, has_half_borrow)
    else
      let (dif2, has_borrow2) := overflowing_sub w dif borrow_value
      (dif2, has_borrow2, has_half_borrow)

/-! ## flag.rs, register.rs, condition.rs -/

/-- The four flag bits of F (`flag.rs`); `val` is the `#[repr(u8)]`
discriminant used by the bit operations on the packed flag byte. -/
inductive Flag | Z | N | H | CY
deriving DecidableEq

def Flag.val : Flag → Nat
  | .Z => 0b10000000
  | .N => 0b01000000
  | .H => 0b00100000
  | .CY => 0b00010000

/-- The seven 8-bit registers (`register.rs`); F is kept separately in the
emulator's packed `flags` byte. -/
inductive Register | A | B | C | D | E | H | L
deriving DecidableEq

/-- `FromPrimitive` for `Register` (discriminants A=7, B=0, C=1, D=2, E=3,
H=4, L=5; 6 is the reserved `(HL)` code and yields `none`). -/
def Register.from_u8 : Nat → Option Register
  | 0 => some .B
  | 1 => some .C
  | 2 => some .D
  | 3 => some .E
  | 4 => some .H
  | 5 => some .L
  | 7 => some .A
  | _ => none

/-- The four register pairs (`register.rs`). -/
inductive RegisterPair | Af | Bc | De | Hl
deriving DecidableEq

/-- `FromPrimitive` for `RegisterPair` (Bc=0, De=1, Hl=2, Af=3). -/
def RegisterPair.from_u8 : Nat → Option RegisterPair
  | 0 => some .Bc
  | 1 => some .De
  | 2 => some .Hl
  | 3 => some .Af
  | _ => none

/-- `RegisterPair::to_registers`: the `(low, high)` register identities
(the source's `Af` arm is the placeholder `(A, A)`; the `Af` case of
`set_register_pair` never consults it). -/
def RegisterPair.to_registers : RegisterPair → Register × Register
  | .Af => (.A, .A)
  | .Bc => (.C, .B)
  | .De => (.E, .D)
  | .Hl => (.L, .H)

/-- Branch conditions (`condition.rs`). -/
inductive Condition | C | Nc | Nz | Z
deriving DecidableEq

/-- `FromPrimitive` for `Condition` (Nz=0, Z=1, Nc=2, C=3). -/
def Condition.from_u8 : Nat → Option Condition
  | 0 => some .Nz
  | 1 => some .Z
  | 2 => some .Nc
  | 3 => some .C
  | _ => none

/-! ## Error types (`memory_component.rs`, `instruction.rs`) -/

/-- `MemoryError` from the memory-component contract. -/
inductive MemoryError
  | ReadError (location : Nat) (message : String)
  | WriteError (location : Nat) (value : Nat) (message : String)
deriving DecidableEq

/-- `OpError` from `instruction.rs`.  `OpcodeError` values reach
instruction bodies only through the `From<OpcodeError> for OpError`
conversion, so the parse errors are stated directly in `OpError` form. -/
inductive OpError
  | ConditionParse (c : Nat)
  | Memory (e : MemoryError)
  | PageParse (p : Nat)
  | RegisterParse (r : Nat)
  | RegisterPairParse (r : Nat)
  | Unimplemented (p : Bool) (o : Nat)
deriving DecidableEq

/-! ## opcode.rs: field extraction from an opcode byte -/

/-- Position of the least significant set bit of an 8-bit mask
(`u8::trailing_zeros` as used by the `parse_*` extractors). -/
def u8_trailing_zeros (mask : Nat) : Nat :=
  ((List.range 8).find? fun i => mask.testBit i).getD 8

/-- `opcode.parse_register(mask)`. -/
def parse_register (opcode mask : Nat) : Except OpError Register :=
  let argument := (opcode &&& mask) >>> u8_trailing_zeros mask
  match Register.from_u8 argument with
  | some r => .ok r
  | none => .error (.RegisterParse argument)

/-- `opcode.parse_register_pair(mask)`. -/
def parse_register_pair (opcode mask : Nat) : Except OpError RegisterPair :=
  let argument := (opcode &&& mask) >>> u8_trailing_zeros mask
  match RegisterPair.from_u8 argument with
  | some r => .ok r
  | none => .error (.RegisterPairParse argument)

/-- `opcode.parse_condition(mask)`. -/
def parse_condition (opcode mask : Nat) : Except OpError Condition :=
  let argument := (opcode &&& mask) >>> u8_trailing_zeros mask
  match Condition.from_u8 argument with
  | some c => .ok c
  | none => .error (.ConditionParse argument)

/-- `opcode.parse_page(mask)`: the RST page target `t * 0x08`. -/
def parse_page (opcode mask : Nat) : Except OpError Nat :=
  let argument := (opcode &&& mask) >>> u8_trailing_zeros mask
  if argument ≤ 7 then .ok (argument * 0x08) else .error (.PageParse argument)

/-! ## emulator.rs: the CPU state -/

/-- `EmulationState` (Run / Halt / Stop). -/
inductive EmulationState | Halt | Run | Stop
deriving DecidableEq

/-- The CPU state of `Emulator`.  The register `HashMap` is a total
function `Register → Nat`; the bus (`memory_mapping`) is abstracted for
the CPU-level claims by a total byte store `mem : Nat → Nat` (every
address the scenarios below touch is mapped, so reads and writes succeed
exactly as they do against the test memory component); the mapping layer
itself is modelled separately below for the bus-level claims.  The
instruction tables, which the source builds once at construction and
never mutates, live as top-level definitions further down. -/
structure Emulator where
  cycles_processed : Nat
  flags : Nat
  interrupt_master_enable : Bool
  jumped : Bool
  prefixed : Bool
  program_counter : Nat
  registers : Register → Nat
  stack_pointer : Nat
  state : EmulationState
  mem : Nat → Nat

/-- Modelled from the spec: the crate's `addresses.rs` (declared by
`lib.rs` but absent from the sources) defines `PROGRAM_COUNTER_START`;
the spec gives the power-on program counter as the design value
`0x0100`. -/
def PROGRAM_COUNTER_START : Nat := 0x0100

/-- `Emulator::new` over a given byte store.  Note the source initialises
register B to 1 and all others to 0. -/
def Emulator.new (mem : Nat → Nat) : Emulator where
  cycles_processed := 0
  flags := 0x00
  interrupt_master_enable := false
  jumped := false
  prefixed := false
  program_counter := PROGRAM_COUNTER_START
  registers := fun r => if r = .B then 1 else 0
  stack_pointer := 0
  state := .Run
  mem := mem

/-- `Emulator::flag`: `self.flags & (flag as u8) > 0`. -/
def Emulator.flag (em : Emulator) (f : Flag) : Bool :=
  decide (0 < em.flags &&& f.val)

/-- `Emulator::set_flag` (`!flag as u8` is the 8-bit complement). -/
def Emulator.set_flag (em : Emulator) (f : Flag) (value : Bool) : Emulator :=
  { em with flags := if value then em.flags ||| f.val
                     else em.flags &&& (0xff ^^^ f.val) }

/-- `Condition::check`. -/
def Condition.check (c : Condition) (em : Emulator) : Bool :=
  match c with
  | .C => em.flag .CY
  | .Nc => !em.flag .CY
  | .Nz => !em.flag .Z
  | .Z => em.flag .Z

/-- `Emulator::register`. -/
def Emulator.register (em : Emulator) (r : Register) : Nat :=
  em.registers r

/-- `Emulator::set_register` (a `HashMap::insert`). -/
def Emulator.set_register (em : Emulator) (r : Register) (value : Nat) : Emulator :=
  { em with registers := fun r' => if r' = r then value else em.registers r' }

/-- `Emulator::a`. -/
def Emulator.a (em : Emulator) : Nat := em.register .A

/-- `Emulator::set_a`. -/
def Emulator.set_a (em : Emulator) (value : Nat) : Emulator :=
  em.set_register .A value

/-- `u16::from_le_bytes([low, high])`. -/
def u16_from_le_bytes (low high : Nat) : Nat := low + 256 * high

/-- `Emulator::register_pair`: for AF the LOW byte is the flag byte and
the HIGH byte is A. -/
def Emulator.register_pair (em : Emulator) (rp : RegisterPair) : Nat :=
  let low := match rp with
    | .Af => em.flags
    | .Bc => em.registers .C
    | .De => em.registers .E
    | .Hl => em.registers .L
  let high := match rp with
    | .Af => em.registers .A
    | .Bc => em.registers .B
    | .De => em.registers .D
    | .Hl => em.registers .H
  u16_from_le_bytes low high

/-- `Emulator::set_register_pair`.  The source's AF arm assigns the LOW
byte of the value to register A and the HIGH byte to the flag byte — the
inverse orientation of `register_pair`. -/
def Emulator.set_register_pair (em : Emulator) (rp : RegisterPair) (value : Nat) : Emulator :=
  let low_value := value % 256
  let high_value := value / 256 % 256
  if rp = RegisterPair.Af then
    let em := em.set_register .A low_value
    { em with flags := high_value }
  else
    let (low_register, high_register) := rp.to_registers
    (em.set_register low_register low_value).set_register high_register high_value

/-- `Emulator::hl`. -/
def Emulator.hl (em : Emulator) : Nat := em.register_pair .Hl

/-- `Emulator::set_hl`. -/
def Emulator.set_hl (em : Emulator) (value : Nat) : Emulator :=
  em.set_register_pair .Hl value

/-- `Emulator::read`: one cycle per bus read. -/
def Emulator.read (em : Emulator) (location : Nat) : Nat × Emulator :=
  (em.mem location, { em with cycles_processed := em.cycles_processed + 1 })

/-- `Emulator::write`: one cycle per bus write. -/
def Emulator.write (em : Emulator) (location value : Nat) : Emulator :=
  { em with cycles_processed := em.cycles_processed + 1,
            mem := fun a => if a = location then value else em.mem a }

/-- `Emulator::read_hl_location`. -/
def Emulator.read_hl_location (em : Emulator) : Nat × Emulator :=
  em.read (em.register_pair .Hl)

/-- `Emulator::write_hl_location`. -/
def Emulator.write_hl_location (em : Emulator) (value : Nat) : Emulator :=
  em.write (em.register_pair .Hl) value

/-- `Emulator::read_immediate_n`: read at PC, then `wrapping_add(1)` on
PC (no extra cycle beyond the read). -/
def Emulator.read_immediate_n (em : Emulator) : Nat × Emulator :=
  let (value, em) := em.read em.program_counter
  (value, { em with program_counter := (em.program_counter + 1) % 65536 })

/-- `value as i8`: reinterpret a byte as a signed 8-bit integer. -/
def u8_as_i8 (value : Nat) : Int :=
  if value < 128 then (value : Int) else (value : Int) - 256

/-- `Emulator::read_immediate_e` (`read_immediate_n` then `as i8`). -/
def Emulator.read_immediate_e (em : Emulator) : Int × Emulator :=
  let (value, em) := em.read_immediate_n
  (u8_as_i8 value, em)

/-- `Emulator::read_immediate_nn`: low byte first, then high. -/
def Emulator.read_immediate_nn (em : Emulator) : Nat × Emulator :=
  let (low, em) := em.read_immediate_n
  let (high, em) := em.read_immediate_n
  (u16_from_le_bytes low high, em)

/-- `Emulator::set_program_counter`: also consumes one cycle (the
internal cycle of loading a branch target). -/
def Emulator.set_program_counter (em : Emulator) (value : Nat) : Emulator :=
  { em with program_counter := value,
            cycles_processed := em.cycles_processed + 1 }

/-- `Emulator::jump_to`: sets PC and the `jumped` latch; it does NOT
touch the cycle counter. -/
def Emulator.jump_to (em : Emulator) (location : Nat) : Emulator :=
  { em with program_counter := location, jumped := true }

/-- `i8::abs`, composed where applicable with the later
`try_into().ok().unwrap()`: for `i8::MIN` the absolute value overflows
(a panic under checked arithmetic; under release semantics `abs` returns
`-128` and `add_signed`'s `try_into::<U>().ok().unwrap()` then panics on
the negative value), so `-128` has no result; every other `i8` yields its
natural absolute value. -/
def i8_abs (b : Int) : Option Nat :=
  if b = -128 then none else some b.natAbs

/-- `Emulator::jump_relative_to`: a negative operand is turned into an
unsigned `wrapping_sub` of its absolute value, a non-negative one into a
`wrapping_add`. -/
def Emulator.jump_relative_to (em : Emulator) (value : Int) : Option Emulator :=
  if value < 0 then
    (i8_abs value).map fun a =>
      em.jump_to ((em.program_counter + 65536 - a % 65536) % 65536)
  else
    some (em.jump_to ((em.program_counter + value.toNat) % 65536))

/-- `Emulator::set_stack_pointer`. -/
def Emulator.set_stack_pointer (em : Emulator) (value : Nat) : Emulator :=
  { em with stack_pointer := value }

/-- `Emulator::set_interrupt_master_enable`. -/
def Emulator.set_interrupt_master_enable (em : Emulator) (value : Bool) : Emulator :=
  { em with interrupt_master_enable := value }

/-- `Emulator::add_unsigned` at bit width `w`: routes through `bit_add`
and writes all four flags (N is ALWAYS cleared, CY is ALWAYS overwritten
with the carry out). -/
def Emulator.add_unsigned (em : Emulator) (w a b : Nat) (with_carry : Bool) :
    Nat × Emulator :=
  let has_carry := with_carry && em.flag .CY
  let (value, carry, half_carry) := bit_add w a b has_carry
  let em := em.set_flag .CY carry
  let em := em.set_flag .H half_carry
  let em := em.set_flag .N false
  let em := em.set_flag .Z (value == 0)
  (value, em)

/-- `Emulator::subtract_unsigned` at bit width `w`: routes through
`bit_subtract` and writes all four flags (N is ALWAYS set, CY is ALWAYS
overwritten with the borrow). -/
def Emulator.subtract_unsigned (em : Emulator) (w a b : Nat) (with_carry : Bool) :
    Nat × Emulator :=
  let has_carry := with_carry && em.flag .CY
  let (dif, borrow, half_borrow) := bit_subtract w a b has_carry
  let em := em.set_flag .CY borrow
  let em := em.set_flag .H half_borrow
  let em := em.set_flag .N true
  let em := em.set_flag .Z (dif == 0)
  (dif, em)

/-- `Emulator::add_signed` at bit width `w`: a negative `b` becomes an
unsigned subtraction of `b.abs().try_into().ok().unwrap()` (no result
for `b = -128`, see `i8_abs`) followed by clearing N; a non-negative `b`
becomes an unsigned addition. -/
def Emulator.add_signed (em : Emulator) (w a : Nat) (b : Int) (with_carry : Bool) :
    Option (Nat × Emulator) :=
  if b < 0 then
    (i8_abs b).map fun b_unsigned =>
      let (value, em) := em.subtract_unsigned w a b_unsigned with_carry
      let em := em.set_flag .N false
      (value, em)
  else
    some (em.add_unsigned w a b.toNat with_carry)

/-- `Emulator::add_to_a` (8-bit lane). -/
def Emulator.add_to_a (em : Emulator) (value : Nat) (with_carry : Bool) : Emulator :=
  let (value, em) := em.add_unsigned 8 (em.registers .A) value with_carry
  em.set_register .A value

/-- `Emulator::subtract_from_a` (8-bit lane). -/
def Emulator.subtract_from_a (em : Emulator) (value : Nat) (with_carry : Bool) : Emulator :=
  let (value, em) := em.subtract_unsigned 8 (em.register .A) value with_carry
  em.set_register .A value

/-! ## opcode.rs: pattern expansion (`OpcodePattern::opcodes`)

The expansion works on the pattern's character list (`String.data`), with
list-level counterparts of `str::contains` / `str::replace`. -/

/-- Does `s` start with `pat`? -/
def starts_with : List Char → List Char → Bool
  | _, [] => true
  | [], _ :: _ => false
  | c :: s, p :: ps => c == p && starts_with s ps

/-- `str::replace`: replace every non-overlapping occurrence of `pat`
(never empty here) left to right.  The fuel (instantiated with the length
of `s`) bounds the recursion. -/
def replace_aux : Nat → List Char → List Char → List Char → List Char
  | 0, s, _, _ => s
  | fuel + 1, s, pat, rep =>
    match s with
    | [] => []
    | c :: rest =>
      if starts_with s pat then rep ++ replace_aux fuel (s.drop pat.length) pat rep
      else c :: replace_aux fuel rest pat rep

def str_replace (s pat rep : List Char) : List Char :=
  replace_aux s.length s pat rep

/-- `str::contains` for a substring pattern. -/
def str_contains (s pat : List Char) : Bool :=
  (List.range (s.length + 1)).any fun i => starts_with (s.drop i) pat

def TWO_BIT_VARIATIONS : List String := ["00", "01", "10", "11"]

def THREE_BIT_VARIATIONS : List String :=
  ["000", "001", "010", "011", "100", "101", "110", "111"]

/-- Register fields admit the seven register codes; `110` (the `(HL)`
slot) is excluded. -/
def REGISTER_VARIATIONS : List String :=
  ["000", "001", "010", "011", "100", "101", "111"]

/-- The field patterns in the order the source's loop tries them:
registers (`rrr`, `qqq`), register pairs (`ss`, `dd`), conditions (`cc`),
bit arguments (`bbb`), memory arguments (`ttt`). -/
def field_variations : List (String × List String) :=
  [("rrr", REGISTER_VARIATIONS), ("qqq", REGISTER_VARIATIONS),
   ("ss", TWO_BIT_VARIATIONS), ("dd", TWO_BIT_VARIATIONS),
   ("cc", TWO_BIT_VARIATIONS), ("bbb", THREE_BIT_VARIATIONS),
   ("ttt", THREE_BIT_VARIATIONS)]

/-- The `process` helper: the first field contained in `s` expands it to
one copy per variation; `none` when no field occurs. -/
def process_field : List (String × List String) → List Char → Option (List (List Char))
  | [], _ => none
  | (pat, variations) :: rest, s =>
    if str_contains s pat.data then
      some (variations.map fun v => str_replace s pat.data v.data)
    else process_field rest s

/-- `u8::from_str_radix(s, 2)`. -/
def parse_binary : List Char → Option Nat
  | [] => none
  | s => s.foldl
      (fun acc c =>
        acc.bind fun n =>
          if c == '0' then some (2 * n)
          else if c == '1' then some (2 * n + 1)
          else none)
      (some 0)

/-- The work-list loop of `OpcodePattern::opcodes`.  The source pops from
the end of a `Vec` and collects results into a `HashSet`; processing the
work list front-first only permutes the resulting collection, and the
opcodes a pattern expands to are pairwise distinct, so the list produced
here is that set.  The `none` arm of `parse_binary` is the source's parse
panic; no pattern in this crate reaches it.  A pattern with `k ≤ 2` field
occurrences pops at most `1 + 8 + 8 * 8` strings, well under the fuel. -/
def opcodes_aux : Nat → List (List Char) → List Nat
  | 0, _ => []
  | _ + 1, [] => []
  | fuel + 1, s :: rest =>
    match process_field field_variations s with
    | some expanded => opcodes_aux fuel (rest ++ expanded)
    | none =>
      match parse_binary s with
      | some opcode => opcode :: opcodes_aux fuel rest
      | none => opcodes_aux fuel rest

/-- `OpcodePattern::opcodes` on a pattern string: strip the spaces, then
expand every field to its admissible bit strings. -/
def pattern_opcodes (pattern : String) : List Nat :=
  opcodes_aux 100 [pattern.data.filter (fun c => c != ' ')]

/-! ## instruction.rs: instruction records and the dispatch tables -/

/-- Outcome of `process_opcode` or of an instruction body.  The outer
`Option` is `none` for a Rust panic and for the dispatch of a body this
development does not embed (no theorem below dispatches one); the
`Except` mirrors `OpResult`, carrying the mutated emulator on `Ok`. -/
abbrev OpOutcome := Option (Except OpError Emulator)

/-- An instruction body `fn(&mut Emulator, u8) -> OpResult`. -/
abbrev OpBody := Emulator → Nat → OpOutcome

/-- An `Instruction` record: name, body, bit-pattern template and the
CB-prefix flag.  `op := none` marks a body this development does not
embed. -/
structure Instruction where
  name : String
  op : Option OpBody
  pattern : String
  requiresPrefix : Bool

/-! ## The instruction bodies the claims exercise -/

/-- `call_instructions::store_program_counter`: pushes the CURRENT
program counter (high byte at `SP-1`, low byte at `SP-2`); when `call`
invokes it the two CALL operand bytes have not been consumed yet.  Bus
writes always succeed against the total byte store, so the source's
error propagation has nothing to propagate here. -/
def store_program_counter (em : Emulator) : Emulator :=
  let low_value := em.program_counter % 256
  let high_value := em.program_counter / 256 % 256
  let em := em.write (em.stack_pointer - 1) high_value
  em.write (em.stack_pointer - 2) low_value

/-- `call_instructions::call` (CALL nn): push PC, then read the target,
then load it into PC (one extra cycle), then drop SP by two. -/
def call : OpBody := fun em _ =>
  let em := store_program_counter em
  let (nn, em) := em.read_immediate_nn
  let em := em.set_program_counter nn
  let em := em.set_stack_pointer (em.stack_pointer - 2)
  some (.ok em)

/-- `call_instructions::ret` (RET): pop the return address into PC (one
extra cycle for the PC load), then raise SP by two. -/
def ret : OpBody := fun em _ =>
  let (low_value, em) := em.read em.stack_pointer
  let (high_value, em) := em.read (em.stack_pointer + 1)
  let em := em.set_program_counter (u16_from_le_bytes low_value high_value)
  let em := em.set_stack_pointer (em.stack_pointer + 2)
  some (.ok em)

/-- `jump_instructions::jump_to_immediate_nn` (JP nn): read the target,
then `jump_to` (which does NOT consume a cycle). -/
def jump_to_immediate_nn : OpBody := fun em _ =>
  let (nn, em) := em.read_immediate_nn
  some (.ok (em.jump_to nn))

/-- `jump_instructions::jump_to_immediate_e` (JR e): read the signed
offset, then `jump_relative_to` (no cycle either). -/
def jump_to_immediate_e : OpBody := fun em _ =>
  let (e, em) := em.read_immediate_e
  (em.jump_relative_to e).map Except.ok

/-- `arithmetic_instructions::inc_register` (INC r): routes through
`add_unsigned`, so all four flags — CY included — are rewritten. -/
def inc_register : OpBody := fun em opcode =>
  match parse_register opcode 0b00111000 with
  | .error e => some (.error e)
  | .ok register =>
    let value := em.register register
    let (value, em) := em.add_unsigned 8 value 1 false
    some (.ok (em.set_register register value))

/-- `arithmetic_instructions::dec_register` (DEC r): routes through
`subtract_unsigned`, so all four flags — CY included — are rewritten. -/
def dec_register : OpBody := fun em opcode =>
  match parse_register opcode 0b00111000 with
  | .error e => some (.error e)
  | .ok register =>
    let value := em.register register
    let (value, em) := em.subtract_unsigned 8 value 1 false
    some (.ok (em.set_register register value))

/-- `arithmetic_instructions::inc_hl_location` (INC (HL)). -/
def inc_hl_location : OpBody := fun em _ =>
  let (value, em) := em.read_hl_location
  let (value, em) := em.add_unsigned 8 value 1 false
  some (.ok (em.write_hl_location value))

/-- `arithmetic_instructions::dec_hl_location` (DEC (HL)). -/
def dec_hl_location : OpBody := fun em _ =>
  let (value, em) := em.read_hl_location
  let (value, em) := em.subtract_unsigned 8 value 1 false
  some (.ok (em.write_hl_location value))

/-- `loading_instructions::push_register_pair` (PUSH qq). -/
def push_register_pair : OpBody := fun em opcode =>
  match parse_register_pair opcode 0b00110000 with
  | .error e => some (.error e)
  | .ok register_pair =>
    let value := em.register_pair register_pair
    let low := value % 256
    let high := value / 256 % 256
    let em := em.write (em.stack_pointer - 1) high
    let em := em.write (em.stack_pointer - 2) low
    some (.ok (em.set_stack_pointer (em.stack_pointer - 2)))

/-- `loading_instructions::pop_register_pair` (POP qq): reads low at SP
and high at SP+1 and stores them through `set_register_pair`. -/
def pop_register_pair : OpBody := fun em opcode =>
  match parse_register_pair opcode 0b00110000 with
  | .error e => some (.error e)
  | .ok register_pair =>
    let (low, em) := em.read em.stack_pointer
    let (high, em) := em.read (em.stack_pointer + 1)
    let em := em.set_register_pair register_pair (u16_from_le_bytes low high)
    some (.ok (em.set_stack_pointer (em.stack_pointer + 2)))

/-- `general_instructions::decimal_adjust_a` (DAA).  The high-digit test
of the source is `a & 0xf0 > 0x90` (high NIBBLE strictly above 9), not a
comparison of the whole accumulator against 0x99.  `offset ≤ 0x66`, so
the `wrapping_sub`/`wrapping_add` are written with the explicit 8-bit
wrap. -/
def decimal_adjust_a : OpBody := fun em _ =>
  let a := em.a
  let h := em.flag .H
  let n := em.flag .N
  let cy := em.flag .CY
  let offset := if (!n && decide (0x09 < a &&& 0x0f)) || h then 0x00 ||| 0x06 else 0x00
  let (carry, offset) :=
    if (!n && decide (0x90 < a &&& 0xf0)) || cy then (true, offset ||| 0x60)
    else (false, offset)
  let a := if n then (a + 256 - offset) % 256 else (a + offset) % 256
  let em := em.set_a a
  let em := em.set_flag .CY carry
  let em := em.set_flag .H false
  let em := em.set_flag .Z (a == 0)
  some (.ok em)

/-! ## The registered instruction set

`emulation::add_instructions` registers the eight families in order
(arithmetic, bit, call, general, jump, loading, logical, rotating), each
family in its `add_*_instructions` order.  `name`, `pattern` and
`requires_prefix` are the source values (several `name` strings in
`loading_instructions.rs` are shifted by one against their ops in the
source; they are reproduced as-is and never consulted).  `op := none`
marks the bodies this development does not embed; no theorem below
dispatches one. -/
/-- The instructions registered by `add_arithmetic_instructions`, in registration order. -/
def ARITHMETIC_INSTRUCTIONS : List Instruction := [
  { name := "ADD A, (HL)", op := none, pattern := "10 000 110", requiresPrefix := false },
  { name := "ADD SP, e", op := none, pattern := "11 101 000", requiresPrefix := false },
  { name := "ADD A, n", op := none, pattern := "11 000 110", requiresPrefix := false },
  { name := "ADD HL, ss", op := none, pattern := "00 ss1 001", requiresPrefix := false },
  { name := "ADD A, r", op := none, pattern := "10 000 rrr", requiresPrefix := false },
  { name := "ADC A, (HL)", op := none, pattern := "10 001 110", requiresPrefix := false },
  { name := "ADC A, n", op := none, pattern := "11 001 110", requiresPrefix := false },
  { name := "ADC A, r", op := none, pattern := "10 001 rrr", requiresPrefix := false },
  { name := "CP (HL)", op := none, pattern := "10 111 110", requiresPrefix := false },
  { name := "CP n", op := none, pattern := "11 111 110", requiresPrefix := false },
  { name := "CP r", op := none, pattern := "10 111 rrr", requiresPrefix := false },
  { name := "DEC (HL)", op := some dec_hl_location, pattern := "00 110 101", requiresPrefix := false },
  { name := "DEC r", op := some dec_register, pattern := "00 rrr 101", requiresPrefix := false },
  { name := "DEC ss", op := none, pattern := "00 ss1 011", requiresPrefix := false },
  { name := "INC (HL)", op := some inc_hl_location, pattern := "00 110 100", requiresPrefix := false },
  { name := "INC r", op := some inc_register, pattern := "00 rrr 100", requiresPrefix := false },
  { name := "INC ss", op := none, pattern := "00 ss0 011", requiresPrefix := false },
  { name := "SUB A, (HL)", op := none, pattern := "10 010 110", requiresPrefix := false },
  { name := "SUB A, n", op := none, pattern := "11 010 110", requiresPrefix := false },
  { name := "SUB A, r", op := none, pattern := "10 010 rrr", requiresPrefix := false },
  { name := "SBC A, (HL)", op := none, pattern := "10 011 110", requiresPrefix := false },
  { name := "SBC A, n", op := none, pattern := "11 011 110", requiresPrefix := false },
  { name := "SBC A, r", op := none, pattern := "10 011 rrr", requiresPrefix := false }]

/-- The instructions registered by `add_bit_instructions`, in registration order. -/
def BIT_INSTRUCTIONS : List Instruction := [
  { name := "BIT b, (HL)", op := none, pattern := "01 bbb 110", requiresPrefix := true },
  { name := "BIT b, r", op := none, pattern := "01 bbb rrr", requiresPrefix := true },
  { name := "RES b, (HL)", op := none, pattern := "10 bbb 110", requiresPrefix := true },
  { name := "RES b, r", op := none, pattern := "10 bbb rrr", requiresPrefix := true },
  { name := "SET b, (HL)", op := none, pattern := "11 bbb 110", requiresPrefix := true },
  { name := "SET b, r", op := none, pattern := "11 bbb rrr", requiresPrefix := true }]

/-- The instructions registered by `add_call_instructions`, in registration order. -/
def CALL_INSTRUCTIONS : List Instruction := [
  { name := "CALL nn", op := some call, pattern := "11 001 101", requiresPrefix := false },
  { name := "CALL cc, nn", op := none, pattern := "11 0cc 100", requiresPrefix := false },
  { name := "RST t", op := none, pattern := "11 ttt 111", requiresPrefix := false },
  { name := "RET", op := some ret, pattern := "11 001 001", requiresPrefix := false },
  { name := "RET cc", op := none, pattern := "11 0cc 000", requiresPrefix := false },
  { name := "RETI", op := none, pattern := "11 011 001", requiresPrefix := false }]

/-- The instructions registered by `add_general_instructions`, in registration order. -/
def GENERAL_INSTRUCTIONS : List Instruction := [
  { name := "CPL A", op := none, pattern := "00 101 111", requiresPrefix := false },
  { name := "DAA", op := some decimal_adjust_a, pattern := "00 100 111", requiresPrefix := false },
  { name := "DI", op := none, pattern := "11 110 011", requiresPrefix := false },
  { name := "EI", op := none, pattern := "11 111 011", requiresPrefix := false },
  { name := "CCF", op := none, pattern := "00 111 111", requiresPrefix := false },
  { name := "HALT", op := none, pattern := "01 110 110", requiresPrefix := false },
  { name := "NOP", op := none, pattern := "00 000 000", requiresPrefix := false },
  { name := "PREFIX", op := none, pattern := "11 001 011", requiresPrefix := false },
  { name := "SCY", op := none, pattern := "00 110 111", requiresPrefix := false },
  { name := "STOP", op := none, pattern := "00 010 000", requiresPrefix := false }]

/-- The instructions registered by `add_jump_instructions`, in registration order. -/
def JUMP_INSTRUCTIONS : List Instruction := [
  { name := "JP (HL)", op := none, pattern := "11 101 001", requiresPrefix := false },
  { name := "JP e", op := some jump_to_immediate_e, pattern := "00 011 000", requiresPrefix := false },
  { name := "JP cc, e", op := none, pattern := "00 1cc 000", requiresPrefix := false },
  { name := "JP nn", op := some jump_to_immediate_nn, pattern := "11 000 011", requiresPrefix := false },
  { name := "JP cc, nn", op := none, pattern := "11 0cc 010", requiresPrefix := false }]

/-- The instructions registered by `add_loading_instructions`, in registration order. -/
def LOADING_INSTRUCTIONS : List Instruction := [
  { name := "LD (BC), A", op := none, pattern := "00 000 010", requiresPrefix := false },
  { name := "LD (C), A", op := none, pattern := "11 100 010", requiresPrefix := false },
  { name := "LD (DE), A", op := none, pattern := "00 010 010", requiresPrefix := false },
  { name := "LD (HLD), A", op := none, pattern := "00 110 010", requiresPrefix := false },
  { name := "LD (HLI), A", op := none, pattern := "00 100 010", requiresPrefix := false },
  { name := "LD (n), A", op := none, pattern := "11 100 000", requiresPrefix := false },
  { name := "LD (nn), A", op := none, pattern := "11 101 010", requiresPrefix := false },
  { name := "LD A, (BC)", op := none, pattern := "00 001 010", requiresPrefix := false },
  { name := "LD A, (C)", op := none, pattern := "11 110 010", requiresPrefix := false },
  { name := "LD A, (DE)", op := none, pattern := "00 011 010", requiresPrefix := false },
  { name := "LD A, (HLD)", op := none, pattern := "11 111 001", requiresPrefix := false },
  { name := "LD A, (HLI)", op := none, pattern := "00 111 010", requiresPrefix := false },
  { name := "LD r, (HL)", op := none, pattern := "00 101 010", requiresPrefix := false },
  { name := "LD SP, HL", op := none, pattern := "01 rrr 110", requiresPrefix := false },
  { name := "LD (HL), n", op := none, pattern := "00 110 110", requiresPrefix := false },
  { name := "LD r, n", op := none, pattern := "00 rrr 110", requiresPrefix := false },
  { name := "LD A, (n)", op := none, pattern := "11 110 000", requiresPrefix := false },
  { name := "LD A, (nn)", op := none, pattern := "00 ss0 001", requiresPrefix := false },
  { name := "LD qq, nn", op := none, pattern := "11 111 010", requiresPrefix := false },
  { name := "LD (HL), r", op := none, pattern := "01 110 rrr", requiresPrefix := false },
  { name := "LD r, r", op := none, pattern := "01 rrr qqq", requiresPrefix := false },
  { name := "LDHL SP, e", op := none, pattern := "11 111 000", requiresPrefix := false },
  { name := "LD (nn), SP", op := none, pattern := "00 001 000", requiresPrefix := false },
  { name := "POP ss", op := some pop_register_pair, pattern := "11 ss0 001", requiresPrefix := false },
  { name := "PUSH ss", op := some push_register_pair, pattern := "11 ss0 101", requiresPrefix := false }]

/-- The instructions registered by `add_logical_instructions`, in registration order. -/
def LOGICAL_INSTRUCTIONS : List Instruction := [
  { name := "AND (HL)", op := none, pattern := "10 100 110", requiresPrefix := false },
  { name := "AND n", op := none, pattern := "11 100 110", requiresPrefix := false },
  { name := "AND r", op := none, pattern := "10 100 rrr", requiresPrefix := false },
  { name := "OR (HL)", op := none, pattern := "10 110 110", requiresPrefix := false },
  { name := "OR n", op := none, pattern := "11 110 110", requiresPrefix := false },
  { name := "OR r", op := none, pattern := "10 110 rrr", requiresPrefix := false },
  { name := "XOR (HL)", op := none, pattern := "10 101 110", requiresPrefix := false },
  { name := "XOR n", op := none, pattern := "11 101 110", requiresPrefix := false },
  { name := "XOR r", op := none, pattern := "10 101 rrr", requiresPrefix := false }]

/-- The instructions registered by `add_rotating_instructions`, in registration order. -/
def ROTATING_INSTRUCTIONS : List Instruction := [
  { name := "RLCA", op := none, pattern := "00 000 111", requiresPrefix := false },
  { name := "RLA", op := none, pattern := "00 010 111", requiresPrefix := false },
  { name := "RRCA", op := none, pattern := "00 001 111", requiresPrefix := false },
  { name := "RRA", op := none, pattern := "00 011 111", requiresPrefix := false },
  { name := "RLC (HL)", op := none, pattern := "00 000 110", requiresPrefix := true },
  { name := "RL (HL)", op := none, pattern := "00 010 110", requiresPrefix := true },
  { name := "RRC (HL)", op := none, pattern := "00 001 110", requiresPrefix := true },
  { name := "RR (HL)", op := none, pattern := "00 011 110", requiresPrefix := true },
  { name := "RLC r", op := none, pattern := "00 000 rrr", requiresPrefix := true },
  { name := "RL r", op := none, pattern := "00 010 rrr", requiresPrefix := true },
  { name := "RRC r", op := none, pattern := "00 001 rrr", requiresPrefix := true },
  { name := "RR r", op := none, pattern := "00 011 rrr", requiresPrefix := true },
  { name := "SLA (HL)", op := none, pattern := "00 100 110", requiresPrefix := true },
  { name := "SRA (HL)", op := none, pattern := "00 101 110", requiresPrefix := true },
  { name := "SRL (HL)", op := none, pattern := "00 111 110", requiresPrefix := true },
  { name := "SLA r", op := none, pattern := "00 100 rrr", requiresPrefix := true },
  { name := "SRA r", op := none, pattern := "00 101 rrr", requiresPrefix := true },
  { name := "SRL r", op := none, pattern := "00 111 rrr", requiresPrefix := true },
  { name := "SWAP (HL)", op := none, pattern := "00 110 110", requiresPrefix := true },
  { name := "SWAP r", op := none, pattern := "00 110 rrr", requiresPrefix := true }]

def ALL_INSTRUCTIONS : List Instruction :=
  ARITHMETIC_INSTRUCTIONS ++ BIT_INSTRUCTIONS ++ CALL_INSTRUCTIONS ++
  GENERAL_INSTRUCTIONS ++ JUMP_INSTRUCTIONS ++ LOADING_INSTRUCTIONS ++
  LOGICAL_INSTRUCTIONS ++ ROTATING_INSTRUCTIONS

/-- `Emulator::add_instruction`, folded over an instruction list: the
body is appended to the `instructions` vector and every opcode of the
pattern maps `(requires_prefix, opcode) ↦ body index`.  (The source also
panics on a duplicate key via `name_map`; registration of this table
produces no duplicate, so the map below is the resulting `HashMap` as an
association list with pairwise distinct keys.) -/
def add_instruction (acc : List (Option OpBody) × List ((Bool × Nat) × Nat))
    (instruction : Instruction) : List (Option OpBody) × List ((Bool × Nat) × Nat) :=
  let instruction_index := acc.1.length
  (acc.1 ++ [instruction.op],
   acc.2 ++ (pattern_opcodes instruction.pattern).map
      fun opcode => ((instruction.requiresPrefix, opcode), instruction_index))

/-- The `instructions` vector and the `instruction_map` produced by
registering `ALL_INSTRUCTIONS`. -/
def registered_tables : List (Option OpBody) × List ((Bool × Nat) × Nat) :=
  ALL_INSTRUCTIONS.foldl add_instruction ([], [])

def instructions : List (Option OpBody) := registered_tables.1

def instruction_map : List ((Bool × Nat) × Nat) := registered_tables.2

/-- `Emulator::process_opcode`: fetch the opcode at PC (one cycle),
advance PC, clear the prefix latch, look the byte up in the table for the
latched prefix state, and run the body.  A missing entry produces
`OpError::Unimplemented` whose FIRST field is `false` in the prefixed
branch and `true` in the unprefixed branch (the source passes the
negation of the latch).  The lookup precedes any body, so on that error
no instruction body runs. -/
def Emulator.process_opcode (em : Emulator) : OpOutcome :=
  let (opcode, em) := em.read em.program_counter
  let em2 := { em with program_counter := (em.program_counter + 1) % 65536 }
  if em2.prefixed then
    let em3 := { em2 with prefixed := false }
    match List.lookup (true, opcode) instruction_map with
    | none => some (.error (.Unimplemented false opcode))
    | some op_index =>
      match instructions[op_index]? with
      | some (some op) => op em3 opcode
      | _ => none
  else
    match List.lookup (false, opcode) instruction_map with
    | none => some (.error (.Unimplemented true opcode))
    | some op_index =>
      match instructions[op_index]? with
      | some (some op) => op em2 opcode
      | _ => none

/-- Run `n` fetch-decode-execute steps, stopping at the first error or
panic. -/
def run_steps : Nat → Emulator → OpOutcome
  | 0, em => some (.ok em)
  | n + 1, em =>
    match em.process_opcode with
    | some (.ok em2) => run_steps n em2
    | r => r

/-- Sequencing of outcomes: continue on `Ok`, keep the first error or
panic. -/
def OpOutcome.and_then (r : OpOutcome) (f : Emulator → OpOutcome) : OpOutcome :=
  match r with
  | some (.ok em) => f em
  | r => r

/-- The error of an outcome, when it is one (a decidable observation). -/
def outcome_error : OpOutcome → Option OpError
  | some (.error e) => some e
  | _ => none

/-- `general_instructions::UNIMPLEMENTED_OPCODES`: the eleven opcode
bytes with no entry in the unprefixed dispatch table. -/
def UNIMPLEMENTED_OPCODES : List Nat :=
  [0xd3, 0xdb, 0xdd, 0xe3, 0xe4, 0xeb, 0xec, 0xed, 0xf4, 0xfc, 0xfd]

/-! ## memory_mapping.rs: the bus table (claim C2) -/

/-- `u16::MAX as usize = 65535`: the LENGTH of the mapping vector
allocated by `MemoryMapping::new` (`vec![0; u16::MAX as usize]`) — one
entry fewer than the 65536 addresses of the 16-bit space. -/
def MEMORY_MAPPING_LEN : Nat := 65535

/-- The freshly allocated mapping vector.  (`MemoryMapping::new` then
registers `UnimplementedMemory`, whose default `mapped_locations` is
`(0u16..u16::MAX)`; those stores write component index 0 over the initial
zeros, leaving the vector unchanged.) -/
def initial_memory_mapping : List Nat := List.replicate MEMORY_MAPPING_LEN 0

/-- The table-update loop of `MemoryMapping::register_component`:
`table[loc] = idx` for every mapped location of the component.
`List.set` models the in-range `Vec` store; every component of this crate
maps locations below 0xFFFF, so registration itself never faults. -/
def register_locations (table : List Nat) (locs : List Nat) (idx : Nat) : List Nat :=
  locs.foldl (fun t l => t.set l idx) table

/-- A whole registration history (each entry: the component's mapped
locations and its index) applied to the fresh table. -/
def apply_registrations (regs : List (List Nat × Nat)) : List Nat :=
  regs.foldl (fun t r => register_locations t r.1 r.2) initial_memory_mapping

/-- The table lookup `self.memory_mapping[location as usize]` that BOTH
`MemoryMapping::read` and `MemoryMapping::write` perform before
delegating to a component; `none` models the out-of-bounds panic of the
`Vec` index. -/
def memory_mapping_index (table : List Nat) (location : Nat) : Option Nat :=
  table[location]?

theorem register_locations_length (locs : List Nat) (idx : Nat) (table : List Nat) :
    (register_locations table locs idx).length = table.length := by
  induction locs generalizing table with
  | nil => rfl
  | cons l ls ih =>
    simpa [register_locations, List.foldl_cons, List.length_set] using
      ih (table.set l idx)

theorem apply_registrations_length (regs : List (List Nat × Nat)) :
    (apply_registrations regs).length = MEMORY_MAPPING_LEN := by
  suffices h : ∀ t : List Nat,
      (regs.foldl (fun t r => register_locations t r.1 r.2) t).length = t.length by
    simpa [apply_registrations, initial_memory_mapping] using h initial_memory_mapping
  induction regs with
  | nil => intro t; rfl
  | cons r rs ih =>
    intro t
    simpa [List.foldl_cons, register_locations_length] using ih (register_locations t r.1 r.2)

/-! ## work_ram_component.rs (claim C9) -/

def WORK_RAM_START_ADDRESS : Nat := 0xc000

def WORK_RAM_END_ADDRESS : Nat := 0xdfff

def ECHO_RAM_START_ADDRESS : Nat := 0xe000

def ECHO_RAM_END_ADDRESS : Nat := 0xfdff

/-- `WorkRamComponent`: one `HashMap<u16, u8>` keyed by address. -/
structure WorkRamComponent where
  memory_state : Nat → Option Nat

/-- `WorkRamComponent::new`: the constructor's two loops insert `0x00` at
every echo-RAM address and at every work-RAM address — two DISJOINT key
ranges of the same map, with no aliasing between them. -/
def WorkRamComponent.new : WorkRamComponent where
  memory_state := fun location =>
    if ECHO_RAM_START_ADDRESS ≤ location ∧ location ≤ ECHO_RAM_END_ADDRESS then
      some 0x00
    else if WORK_RAM_START_ADDRESS ≤ location ∧ location ≤ WORK_RAM_END_ADDRESS then
      some 0x00
    else none

/-- `WorkRamComponent::read`. -/
def WorkRamComponent.read (c : WorkRamComponent) (location : Nat) :
    Except MemoryError Nat :=
  match c.memory_state location with
  | some value => .ok value
  | none => .error (.ReadError location "invalid state")

/-- `WorkRamComponent::write`: stores at the given key when it is mapped. -/
def WorkRamComponent.write (c : WorkRamComponent) (location value : Nat) :
    Except MemoryError WorkRamComponent :=
  if (c.memory_state location).isSome then
    .ok { memory_state := fun a => if a = location then some value else c.memory_state a }
  else
    .error (.WriteError location value "invalid state")

/-! ## Concrete machine states for the claim scenarios -/

/-- C1 scenario state: PC=0x0150, SP=0xFFFE, memory `CD 00 02` at 0x0150
(`CALL 0x0200`) and `C9` (`RET`) at 0x0200. -/
def c1_state : Emulator :=
  { Emulator.new (fun a =>
      if a = 0x0150 then 0xCD else if a = 0x0151 then 0x00
      else if a = 0x0152 then 0x02 else if a = 0x0200 then 0xC9 else 0x00)
    with program_counter := 0x0150, stack_pointer := 0xFFFE }

/-- C5 scenario state: a taken `JP 0x0200` (`C3 00 02`) at PC=0x0150. -/
def c5_jp_state : Emulator :=
  { Emulator.new (fun a =>
      if a = 0x0150 then 0xC3 else if a = 0x0151 then 0x00
      else if a = 0x0152 then 0x02 else 0x00)
    with program_counter := 0x0150 }

/-- C5 scenario state: a taken `JR +5` (`18 05`) at PC=0x0150. -/
def c5_jr_state : Emulator :=
  { Emulator.new (fun a =>
      if a = 0x0150 then 0x18 else if a = 0x0151 then 0x05 else 0x00)
    with program_counter := 0x0150 }

/-- A fetch state whose whole memory holds the byte `b`, prefix latch
false (C8). -/
def fetch_state (b : Nat) : Emulator := Emulator.new (fun _ => b)

/-- C4 scenario state: SP=0xFFFE, A=0x12, F=0xB0 (Z and H set, low
nibble clear). -/
def c4_af_state : Emulator :=
  ({ Emulator.new (fun _ => 0x00) with stack_pointer := 0xFFFE, flags := 0xB0
   }).set_register .A 0x12

/-- C4 contrast state: SP=0xFFFE, B=0x34, C=0x56. -/
def c4_bc_state : Emulator :=
  (({ Emulator.new (fun _ => 0x00) with stack_pointer := 0xFFFE
    }).set_register .B 0x34).set_register .C 0x56

/-- C10 helper state: a fresh CPU (the helpers read only the flags and,
for `jump_relative_to`, the program counter). -/
def c10_state : Emulator := Emulator.new (fun _ => 0x00)

/-! ## The claims -/

/-- C1 (code bug): in the CALL-then-RET scenario the claim (and the
standard CALL semantics) expects the stack bytes 0xFFFC..0xFFFD to hold
the return address 0x0153 — the instruction AFTER the two operand bytes —
and PC=0x0153 after RET.  The source's `call` runs
`store_program_counter` BEFORE consuming the operand bytes, so the
pushed return address is 0x0151 (little-endian bytes 0x51, 0x01) and RET
lands at 0x0151, in the middle of CALL's own operands. -/
theorem C1_call_pushes_pre_operand_pc :
    (run_steps 1 c1_state).map (Except.map fun em =>
        (em.program_counter, em.stack_pointer, em.mem 0xFFFC, em.mem 0xFFFD))
      = some (.ok (0x0200, 0xFFFC, 0x51, 0x01))
  ∧ (run_steps 2 c1_state).map (Except.map fun em =>
        (em.program_counter, em.stack_pointer))
      = some (.ok (0x0151, 0xFFFE)) := ⟨rfl, rfl⟩

/-- C2 (code bug): the mapping vector has `u16::MAX = 65535` entries, so
after ANY sequence of component registrations the table lookup performed
by `MemoryMapping::read` and `MemoryMapping::write` is out of bounds at
address 0xFFFF (the IE register) — an index panic, not a value or a
`BusError` — while every address below 0xFFFF has a table entry. -/
theorem C2_table_lookup_undefined_at_0xFFFF (regs : List (List Nat × Nat)) :
    memory_mapping_index (apply_registrations regs) 0xFFFF = none
  ∧ ∀ a, a < 0xFFFF →
      (memory_mapping_index (apply_registrations regs) a).isSome = true := by
  have hlen : (apply_registrations regs).length = 65535 := apply_registrations_length regs
  constructor
  · exact List.getElem?_eq_none_iff.mpr (by omega)
  · intro a ha
    rw [memory_mapping_index, List.getElem?_eq_getElem (by omega)]
    rfl

theorem C2_table_lookup_undefined_at_0xFFFF_witness :
    memory_mapping_index (apply_registrations [([0x10], 1)]) 0xFFFF = none
  ∧ (memory_mapping_index (apply_registrations [([0x10], 1)]) 0x1234).isSome = true :=
  ⟨(C2_table_lookup_undefined_at_0xFFFF [([0x10], 1)]).1,
   (C2_table_lookup_undefined_at_0xFFFF [([0x10], 1)]).2 0x1234 (by decide)⟩

/-- C3 (code bug): INC and DEC do NOT preserve CY: both route through
`add_unsigned`/`subtract_unsigned`, which overwrite CY with the carry or
borrow of the `± 1`.  Evaluations of the bodies: INC A (opcode 0x3C) with
CY=1, A=0x00 returns CY=0; INC A with CY=0, A=0xFF returns A=0x00, Z=1,
H=1, N=0 and CY=1 (the claim's boundary case, with CY changed); DEC A
(opcode 0x3D) with CY=1, A=0x05 returns CY=0; INC (HL) with CY=0 and
(HL)=0xFF sets CY=1.  Z, N and H behave as claimed. -/
theorem C3_inc_dec_rewrite_cy :
    (inc_register ((Emulator.new fun _ => 0x00).set_flag .CY true) 0x3C).map
        (Except.map fun em => (em.register .A, em.flag .CY))
      = some (.ok (0x01, false))
  ∧ (inc_register ((Emulator.new fun _ => 0x00).set_register .A 0xFF) 0x3C).map
        (Except.map fun em =>
          (em.register .A, em.flag .Z, em.flag .N, em.flag .H, em.flag .CY))
      = some (.ok (0x00, true, false, true, true))
  ∧ (dec_register (((Emulator.new fun _ => 0x00).set_flag .CY true).set_register
        .A 0x05) 0x3D).map
        (Except.map fun em => (em.register .A, em.flag .CY))
      = some (.ok (0x04, false))
  ∧ (inc_hl_location (((Emulator.new fun a => if a = 0xC000 then 0xFF else 0x00
        ).set_register .H 0xC0).set_register .L 0x00) 0x34).map
        (Except.map fun em => (em.mem 0xC000, em.flag .Z, em.flag .CY))
      = some (.ok (0x00, true, true)) := ⟨rfl, rfl, rfl, rfl⟩

/-- C4 (code bug): PUSH AF then POP AF does not restore the pair:
`set_register_pair(Af)` assigns the popped LOW byte to register A and the
HIGH byte to the flag byte — the inverse orientation of
`register_pair(Af)` — so A and F are swapped (A=0x12, F=0xB0 becomes
A=0xB0, F=0x12; the observable AF value 0x12B0 becomes 0xB012), and the
low nibble of F is never masked.  SP is restored.  For the non-AF pairs
`to_registers` makes push/pop a faithful round trip (shown for BC). -/
theorem C4_push_pop_af_swaps_a_and_f :
    ((push_register_pair c4_af_state 0xF5).and_then fun em =>
        pop_register_pair em 0xF1).map
        (Except.map fun em =>
          (em.register .A, em.flags, em.stack_pointer, em.register_pair .Af))
      = some (.ok (0xB0, 0x12, 0xFFFE, 0xB012))
  ∧ ((push_register_pair c4_bc_state 0xC5).and_then fun em =>
        pop_register_pair em 0xC1).map
        (Except.map fun em => (em.register .B, em.register .C, em.stack_pointer))
      = some (.ok (0x34, 0x56, 0xFFFE)) := ⟨rfl, rfl⟩

/-- C5 (code bug): `jump_to` does not touch the cycle counter (only
`set_program_counter` charges the extra branch cycle), so a taken
`JP nn` costs 1 fetch + 2 operand reads = 3 cycles (the claim says 4)
and a taken `JR e` costs 1 fetch + 1 operand read = 2 cycles (the claim
says 3).  CALL, which does go through `set_program_counter`, costs its
5 bus operations + 1 = 6 cycles, matching the claimed accounting. -/
theorem C5_jump_to_charges_no_cycle :
    (run_steps 1 c5_jp_state).map (Except.map fun em =>
        (em.cycles_processed, em.program_counter, em.jumped))
      = some (.ok (3, 0x0200, true))
  ∧ (run_steps 1 c5_jr_state).map (Except.map fun em =>
        (em.cycles_processed, em.program_counter, em.jumped))
      = some (.ok (2, 0x0157, true))
  ∧ (run_steps 1 c1_state).map (Except.map fun em => em.cycles_processed)
      = some (.ok 6) := ⟨rfl, rfl, rfl⟩

/-- C6 (code bug): DAA with N=0, all flags clear and A=0x9A.  The claim
(and the standard DAA) adds 0x66 — low nibble 0xA > 9 and A > 0x99 —
giving A=0x00, CY=1, Z=1.  The source's high-digit test is
`a & 0xF0 > 0x90`, which is FALSE at 0x9A, so the code adds only 0x06 and
returns A=0xA0 with CY=0 and Z=0. -/
theorem C6_daa_high_digit_test_misses_0x9A :
    (decimal_adjust_a ((Emulator.new fun _ => 0x00).set_register .A 0x9A) 0x27).map
        (Except.map fun em =>
          (em.register .A, em.flag .Z, em.flag .N, em.flag .H, em.flag .CY))
      = some (.ok (0xA0, false, false, false, false)) := rfl

/-- C7 (code bug): `bit_subtract` at `a = 0x00`, `b = 0x0F`,
`borrow_in = true`.  The claimed half-borrow condition
`(a & 0x0F) < (b & 0x0F) + borrow_in` — with the UNMASKED sum, value
`0 < 16` — is true, but the source masks the sum
(`b.wrapping_add(1) & 0x0F = 0`) and returns `half_borrow = false`.
Value and borrow are the wrapped difference 0xF0 and `true`, as
claimed. -/
theorem C7_bit_subtract_masks_half_borrow_sum :
    bit_subtract 8 0x00 0x0F true = (0xF0, true, false)
  ∧ (0x00 &&& 0x0F) < (0x0F &&& 0x0F) + 1 := ⟨rfl, by decide⟩

/-- C8 counterexample: fetching 0xD3 with the prefix latch false yields
the error `Unimplemented(true, 0xD3)` — its boolean field is NOT the
latch value `false` that the claim states. -/
theorem C8_counterexample_boolean_field :
    outcome_error (fetch_state 0xD3).process_opcode
      ≠ some (.Unimplemented false 0xD3) := by decide

/-- C8 (amended): for each of the eleven permanently illegal bytes,
fetching with the prefix latch false finds no unprefixed table entry and
returns `Err(Unimplemented(true, b))` — the byte is reported exactly;
the boolean field is the NEGATION of the prefix latch (displayed by the
source as "prefix required").  The failed lookup precedes dispatch, so no
instruction body runs. -/
theorem C8_illegal_bytes_error :
    UNIMPLEMENTED_OPCODES.map (fun b => outcome_error (fetch_state b).process_opcode)
      = UNIMPLEMENTED_OPCODES.map (fun b => some (.Unimplemented true b)) := rfl

/-- C9 (code bug): echo RAM does not alias work RAM: writing 0x42 at
0xC000 leaves the separately stored byte at 0xE000 at its initial 0x00
(the claim requires 0x42), and symmetrically a write at 0xE000 is not
observable at 0xC000; the written range itself reads back correctly. -/
theorem C9_echo_ram_not_aliased :
    ((WorkRamComponent.new.write 0xC000 0x42).bind fun c => c.read 0xE000)
      = .ok 0x00
  ∧ ((WorkRamComponent.new.write 0xC000 0x42).bind fun c => c.read 0xC000)
      = .ok 0x42
  ∧ ((WorkRamComponent.new.write 0xE000 0x37).bind fun c => c.read 0xC000)
      = .ok 0x00 := ⟨rfl, rfl, rfl⟩

/-- C10 (code bug): the signed-addition helpers are NOT total.  At
operand `e = −128` (byte 0x80), `add_signed` — the helper under
`ADD SP, e` and `LDHL SP, e` — and `jump_relative_to` — the helper under
the JR family — have no result: `i8::abs(-128)` overflows and
`add_signed`'s `try_into().ok().unwrap()` panics on the negative value.
Every other negative operand (shown for −127) completes. -/
theorem C10_signed_helpers_not_total :
    c10_state.add_signed 16 0xFFF8 (-128) false = none
  ∧ c10_state.jump_relative_to (-128) = none
  ∧ (c10_state.add_signed 16 0xFFF8 (-127) false).isSome = true
  ∧ (c10_state.jump_relative_to (-127)).isSome = true := ⟨rfl, rfl, rfl, rfl⟩

end GameboyRust
